import Mathlib

/-!
# Verification of the DOM/3D compositing engine (sih-3dModel)

Shallow embedding of the per-frame overlay transform synchronisation
(`src/MonitorScreen.ts`, responsive variant), the compositing layer stack,
dimmer opacity update, video-binding poll and cross-document message handler
(`src/InteractiveComputer.jsx`, compositing variant of MonitorScreen), and the
overlay lifecycle (React effect mount/cleanup mechanics of that component).

Numbers are modelled as rationals; JS `Math.max` / `Math.min` become `max` /
`min` on `ℚ`, and `Math.round` becomes `⌊x + 1/2⌋`.
-/

namespace SihModel

/-- A 3-component vector of rationals (models `THREE.Vector3`). -/
structure Vec3 where
  x : ℚ
  y : ℚ
  z : ℚ
deriving DecidableEq

/-- A quaternion (models `THREE.Quaternion`); carried symbolically, the code
only copies it, never computes with it. -/
structure Quat where
  qx : ℚ
  qy : ℚ
  qz : ℚ
  qw : ℚ
deriving DecidableEq

/-- The world-space data the frame loop reads from the target mesh:
`Box3.setFromObject` center and size, and `getWorldQuaternion`. -/
structure MeshWorld where
  boxCenter : Vec3
  boxSize : Vec3
  worldQuat : Quat
deriving DecidableEq

/-- A named scene node (what `scene.getObjectByName` searches). -/
structure SceneNode where
  name : String
  world : MeshWorld
deriving DecidableEq

/-- Models `scene.getObjectByName(n)`: first node with the given name, if
any. -/
def getObjectByName (scene : List SceneNode) (n : String) : Option MeshWorld :=
  (scene.find? (fun o => o.name = n)).map (fun o => o.world)

/-- The fixed target node identifier used by the frame loop. -/
def targetName : String := "Object_19"

/-- Transform state of the CSS3D proxy object (position, quaternion, scale). -/
structure ProxyState where
  position : Vec3
  quaternion : Quat
  scale : Vec3
deriving DecidableEq

/-- The additive epsilon `0.0004` applied to each axis scale in
`cssObj.scale.set(sx + 0.0004, sy + 0.0004, 1)`. -/
def epsilonScale : ℚ := 4 / 10000

/-- One step of the responsive `useFrame` body in `MonitorScreen.ts`, given the
result of the mesh lookup: when the mesh is absent the proxy is returned
unchanged (early `return`); otherwise position is set to the world bounding-box
center, quaternion to the mesh world quaternion, and scale to
`(size.x / max 1 w + ε, size.y / max 1 h + ε, 1)`. -/
def monitorFrameStep (mesh : Option MeshWorld) (screenW screenH : ℚ)
    (proxy : ProxyState) : ProxyState :=
  match mesh with
  | none => proxy
  | some m =>
    { position := m.boxCenter
      quaternion := m.worldQuat
      scale :=
        { x := m.boxSize.x / max 1 screenW + epsilonScale
          y := m.boxSize.y / max 1 screenH + epsilonScale
          z := 1 } }

/-- The whole per-frame transform-sync step: look up `"Object_19"` in the scene
and run the frame body on the lookup result. -/
def monitorFrame (scene : List SceneNode) (screenW screenH : ℚ)
    (proxy : ProxyState) : ProxyState :=
  monitorFrameStep (getObjectByName scene targetName) screenW screenH proxy

/-- A sample target mesh matching the spec's end-to-end scenario:
center (1,2,3), world-space size (2, 3/2, 0). -/
def sampleMesh : MeshWorld :=
  { boxCenter := { x := 1, y := 2, z := 3 }
    boxSize := { x := 2, y := 3/2, z := 0 }
    worldQuat := { qx := 0, qy := 0, qz := 0, qw := 1 } }

/-- A scene containing the target mesh under the expected name. -/
def sampleScene : List SceneNode :=
  [{ name := targetName, world := sampleMesh }]

/-- A scene in which the target identifier is absent. -/
def sceneWithoutTarget : List SceneNode :=
  [{ name := "Object_17", world := sampleMesh }]

/-- An arbitrary concrete proxy state used as the pre-state in witnesses. -/
def proxy0 : ProxyState :=
  { position := { x := 5, y := 6, z := 7 }
    quaternion := { qx := 1, qy := 0, qz := 0, qw := 0 }
    scale := { x := 1, y := 1, z := 1 } }

/-- C1: for a found mesh and positive integer pixel dimensions, the per-frame
step sets the x/y scale to exactly `meshWidth/pixelWidth + ε` and
`meshHeight/pixelHeight + ε`, each axis divided independently. -/
theorem overlay_scale_exact (scene : List SceneNode) (m : MeshWorld)
    (pw ph : ℤ) (proxy : ProxyState)
    (hfound : getObjectByName scene targetName = some m)
    (hw : 0 < pw) (hh : 0 < ph) :
    (monitorFrame scene (pw : ℚ) (ph : ℚ) proxy).scale.x
        = m.boxSize.x / (pw : ℚ) + epsilonScale ∧
      (monitorFrame scene (pw : ℚ) (ph : ℚ) proxy).scale.y
        = m.boxSize.y / (ph : ℚ) + epsilonScale := by
  have hw1 : (1 : ℚ) ≤ (pw : ℚ) := by exact_mod_cast hw
  have hh1 : (1 : ℚ) ≤ (ph : ℚ) := by exact_mod_cast hh
  unfold monitorFrame
  rw [hfound]
  unfold monitorFrameStep
  simp [max_eq_right hw1, max_eq_right hh1]

/-- Witness for `overlay_scale_exact` at the spec's end-to-end scenario:
mesh size (2, 3/2), pixel size 1280 × 1024. -/
theorem overlay_scale_exact_witness :
    (monitorFrame sampleScene (1280 : ℚ) (1024 : ℚ) proxy0).scale.x
        = sampleMesh.boxSize.x / (1280 : ℚ) + epsilonScale ∧
      (monitorFrame sampleScene (1280 : ℚ) (1024 : ℚ) proxy0).scale.y
        = sampleMesh.boxSize.y / (1024 : ℚ) + epsilonScale := by
  have h := overlay_scale_exact sampleScene sampleMesh 1280 1024 proxy0
    rfl (by decide) (by decide)
  exact_mod_cast h

/-- C2: for every frame in which the target mesh is found, one transform-sync
step sets the proxy position to the mesh's current world bounding-box center
and its quaternion to the mesh's current world quaternion, exactly. -/
theorem overlay_transform_snap (scene : List SceneNode) (m : MeshWorld)
    (screenW screenH : ℚ) (proxy : ProxyState)
    (hfound : getObjectByName scene targetName = some m) :
    (monitorFrame scene screenW screenH proxy).position = m.boxCenter ∧
      (monitorFrame scene screenW screenH proxy).quaternion = m.worldQuat := by
  unfold monitorFrame
  rw [hfound]
  exact ⟨rfl, rfl⟩

/-- Witness for `overlay_transform_snap` at the concrete sample scene. -/
theorem overlay_transform_snap_witness :
    (monitorFrame sampleScene 1280 1024 proxy0).position = sampleMesh.boxCenter ∧
      (monitorFrame sampleScene 1280 1024 proxy0).quaternion
        = sampleMesh.worldQuat :=
  overlay_transform_snap sampleScene sampleMesh 1280 1024 proxy0 rfl

/-- C3: when `"Object_19"` is absent from the scene, the per-frame step leaves
the proxy completely unchanged (and, being a total function, cannot throw). -/
theorem overlay_skip_when_absent (scene : List SceneNode)
    (screenW screenH : ℚ) (proxy : ProxyState)
    (habsent : getObjectByName scene targetName = none) :
    monitorFrame scene screenW screenH proxy = proxy := by
  unfold monitorFrame
  rw [habsent]
  rfl

/-- Witness for `overlay_skip_when_absent` on a scene holding only
`"Object_17"`. -/
theorem overlay_skip_when_absent_witness :
    monitorFrame sceneWithoutTarget 1280 1024 proxy0 = proxy0 :=
  overlay_skip_when_absent sceneWithoutTarget 1280 1024 proxy0 rfl

/-- C10: for every configured pixel width and height — zero and negative
included — the divisor actually used by the scale computation is
`max 1 pixelDim`, which is at least 1 (hence nonzero): the computation is total
and never divides by zero. -/
theorem overlay_scale_total (m : MeshWorld) (screenW screenH : ℚ)
    (proxy : ProxyState) :
    (1 ≤ max 1 screenW ∧ max 1 screenW ≠ 0) ∧
      (1 ≤ max 1 screenH ∧ max 1 screenH ≠ 0) ∧
      (monitorFrameStep (some m) screenW screenH proxy).scale.x
        = m.boxSize.x / max 1 screenW + epsilonScale ∧
      (monitorFrameStep (some m) screenW screenH proxy).scale.y
        = m.boxSize.y / max 1 screenH + epsilonScale := by
  refine ⟨⟨le_max_left 1 screenW, ?_⟩, ⟨le_max_left 1 screenH, ?_⟩, rfl, rfl⟩
  · have h := le_max_left (1 : ℚ) screenW
    intro hzero
    rw [hzero] at h
    norm_num at h
  · have h := le_max_left (1 : ℚ) screenH
    intro hzero
    rw [hzero] at h
    norm_num at h

/-! ## Dimmer opacity (compositing variant, per-frame `useFrame`) -/

/-- JS `Math.max(0, Math.min(1, x))`. -/
def clamp01 (q : ℚ) : ℚ := max 0 (min 1 q)

/-- The fixed blend weight `DIM_FACTOR = 0.7`. -/
def DIM_FACTOR : ℚ := 7 / 10

/-- Models `1 / Math.max(distance / 10000, 0.0001)` — the reciprocal distance falloff
with its divide-by-zero guard. -/
def opacityFactor (distance : ℚ) : ℚ :=
  1 / max (distance / 10000) (1 / 10000)

/-- The per-frame dimmer opacity, as a function of camera-to-surface distance
and the (clamped) cosine `dot` between view vector and surface normal:
`clamp01 ((1 - opacityFactor) * DIM_FACTOR + (1 - dot) * DIM_FACTOR)`. -/
def dimmerOpacity (distance dot : ℚ) : ℚ :=
  clamp01 ((1 - opacityFactor distance) * DIM_FACTOR + (1 - dot) * DIM_FACTOR)

theorem clamp01_mono {a b : ℚ} (h : a ≤ b) : clamp01 a ≤ clamp01 b :=
  max_le_max le_rfl (min_le_min le_rfl h)

theorem opacityFactor_antitone {d1 d2 : ℚ} (h : d1 ≤ d2) :
    opacityFactor d2 ≤ opacityFactor d1 := by
  unfold opacityFactor
  have hpos : 0 < max (d1 / 10000) (1 / 10000 : ℚ) :=
    lt_of_lt_of_le (by norm_num) (le_max_right _ _)
  exact one_div_le_one_div_of_le hpos
    (max_le_max (by linarith) le_rfl)

/-- C5: the dimmer opacity is monotonically non-decreasing in distance at fixed
view angle, non-decreasing as the view cosine decreases at fixed distance, and
always lies in [0,1]. -/
theorem dimmer_opacity_spec (d d1 d2 t t1 t2 : ℚ)
    (hd : d1 ≤ d2) (ht : t1 ≤ t2) :
    dimmerOpacity d1 t ≤ dimmerOpacity d2 t ∧
      dimmerOpacity d t2 ≤ dimmerOpacity d t1 ∧
      0 ≤ dimmerOpacity d t ∧ dimmerOpacity d t ≤ 1 := by
  unfold dimmerOpacity
  refine ⟨clamp01_mono ?_, clamp01_mono ?_, le_max_left 0 _,
    max_le (by norm_num) (min_le_left 1 _)⟩
  · have hf := opacityFactor_antitone hd
    have hm : (1 - opacityFactor d1) * DIM_FACTOR
        ≤ (1 - opacityFactor d2) * DIM_FACTOR := by
      apply mul_le_mul_of_nonneg_right (by linarith)
      unfold DIM_FACTOR
      norm_num
    linarith
  · have hm : (1 - t2) * DIM_FACTOR ≤ (1 - t1) * DIM_FACTOR := by
      apply mul_le_mul_of_nonneg_right (by linarith)
      unfold DIM_FACTOR
      norm_num
    linarith

/-- Witness for `dimmer_opacity_spec` at concrete distances 5 ≤ 20 and view
cosines 0 ≤ 1. -/
theorem dimmer_opacity_spec_witness :
    dimmerOpacity 5 (1/2) ≤ dimmerOpacity 20 (1/2) ∧
      dimmerOpacity 3 1 ≤ dimmerOpacity 3 0 ∧
      0 ≤ dimmerOpacity 3 (1/2) ∧ dimmerOpacity 3 (1/2) ≤ 1 := by
  have h := dimmer_opacity_spec 3 5 20 (1/2) 0 1 (by norm_num) (by norm_num)
  exact ⟨h.1, h.2.1, h.2.2.1, h.2.2.2⟩

/-! ## Video-binding poll (compositing variant, `useEffect` interval) -/

/-- The constant `maxAttempts = 200` from the poll effect. -/
def maxAttempts : ℕ := 200

/-- State of the polling interval: attempt counter, whether each of the two
expected video elements has been bound to a texture, and whether the interval
is still live (`clearInterval` not yet called). -/
structure PollState where
  attempts : ℕ
  bound1 : Bool
  bound2 : Bool
  active : Bool
deriving DecidableEq

/-- Initial poll state right after the effect installs the interval. -/
def initPoll : PollState :=
  { attempts := 0, bound1 := false, bound2 := false, active := true }

/-- One interval tick: if the interval was cleared nothing happens; otherwise
`attempts` is incremented, any newly available video element is bound, and the
interval clears itself when all videos are bound or `attempts > maxAttempts`.
`avail1`/`avail2` say whether `document.getElementById` finds each video
element at this tick. -/
def pollTick (avail1 avail2 : Bool) (s : PollState) : PollState :=
  if s.active then
    let attempts := s.attempts + 1
    let b1 := s.bound1 || avail1
    let b2 := s.bound2 || avail2
    { attempts := attempts
      bound1 := b1
      bound2 := b2
      active := !(b1 && b2 || decide (maxAttempts < attempts)) }
  else s

/-- A run of the interval over a list of per-tick availabilities. -/
def runPoll (ticks : List (Bool × Bool)) (s : PollState) : PollState :=
  ticks.foldl (fun st t => pollTick t.1 t.2 st) s

theorem pollTick_inactive {s : PollState} (h : s.active = false)
    (a1 a2 : Bool) : pollTick a1 a2 s = s := by
  unfold pollTick
  rw [h]
  rfl

theorem runPoll_inactive {s : PollState} (h : s.active = false) :
    ∀ ticks : List (Bool × Bool), runPoll ticks s = s := by
  intro ticks
  induction ticks with
  | nil => rfl
  | cons t rest ih =>
    show runPoll rest (pollTick t.1 t.2 s) = s
    rw [pollTick_inactive h]
    exact ih

theorem pollTick_active_step {s : PollState} {a1 a2 : Bool}
    (h : (pollTick a1 a2 s).active = true) :
    s.active = true ∧ (pollTick a1 a2 s).attempts = s.attempts + 1 ∧
      (pollTick a1 a2 s).attempts ≤ maxAttempts := by
  by_cases hs : s.active = true
  · have hatt : (pollTick a1 a2 s).attempts = s.attempts + 1 := by
      simp [pollTick, hs]
    refine ⟨hs, hatt, ?_⟩
    rw [hatt]
    simp only [pollTick, hs, if_true] at h
    simp only [Bool.not_eq_true', Bool.or_eq_false_iff,
      decide_eq_false_iff_not, not_lt] at h
    exact h.2
  · rw [pollTick_inactive (Bool.not_eq_true _ ▸ hs)] at h
    exact absurd h hs

theorem runPoll_active_count (ticks : List (Bool × Bool)) :
    ∀ s : PollState, (runPoll ticks s).active = true →
      (runPoll ticks s).attempts = s.attempts + ticks.length ∧
        (ticks = [] → runPoll ticks s = s) ∧
        (ticks ≠ [] → (runPoll ticks s).attempts ≤ maxAttempts) := by
  induction ticks with
  | nil =>
    intro s _
    exact ⟨rfl, fun _ => rfl, fun h => absurd rfl h⟩
  | cons t rest ih =>
    intro s hact
    have hrun : runPoll (t :: rest) s = runPoll rest (pollTick t.1 t.2 s) := rfl
    rw [hrun] at hact ⊢
    by_cases hmid : (pollTick t.1 t.2 s).active = true
    · have hstep := pollTick_active_step hmid
      rcases ih (pollTick t.1 t.2 s) hact with ⟨hcount, hnil, hbound⟩
      refine ⟨by rw [hcount, hstep.2.1, List.length_cons]; omega,
        fun h => absurd h (by simp), ?_⟩
      intro _
      by_cases hr : rest = []
      · rw [hr] at hcount ⊢
        simp only [List.length_nil, Nat.add_zero] at hcount
        rw [show runPoll [] (pollTick t.1 t.2 s) = pollTick t.1 t.2 s from rfl]
        exact hstep.2.2
      · exact hbound hr
    · have hmid' : (pollTick t.1 t.2 s).active = false := by
        cases hpt : (pollTick t.1 t.2 s).active
        · rfl
        · exact absurd hpt hmid
      rw [runPoll_inactive hmid' rest] at hact
      exact absurd hact hmid

set_option maxRecDepth 4000 in
/-- C6 counterexample: after exactly `maxAttempts` (200) interval ticks during
which no matching video element ever appears, polling has NOT stopped — the
interval is still active, so a 201st attempt occurs: the poll does not stop
within the fixed maximum attempt count. -/
theorem poll_still_active_after_max_attempts :
    (runPoll (List.replicate maxAttempts (false, false)) initPoll).active
      = true := by
  decide

/-- C6 amended: the poll always terminates, but only after at most
`maxAttempts + 1` ticks: every run of at least 201 ticks ends with the interval
cleared, whatever the availability pattern; and the interval also clears itself
on any tick after which both expected videos are bound. -/
theorem poll_terminates (ticks : List (Bool × Bool))
    (h : maxAttempts + 1 ≤ ticks.length) :
    (runPoll ticks initPoll).active = false ∧
      ∀ (a1 a2 : Bool) (s : PollState),
        ((pollTick a1 a2 s).bound1 && (pollTick a1 a2 s).bound2) = true →
          (pollTick a1 a2 s).active = false := by
  constructor
  · cases hact : (runPoll ticks initPoll).active
    · rfl
    · exfalso
      rcases runPoll_active_count ticks initPoll hact with ⟨hcount, _, hbound⟩
      have hne : ticks ≠ [] := by
        intro hnil
        rw [hnil] at h
        simp [maxAttempts] at h
      have h2 := hbound hne
      rw [hcount] at h2
      have h0 : initPoll.attempts = 0 := rfl
      have hm : maxAttempts = 200 := rfl
      rw [h0, hm] at h2
      rw [hm] at h
      omega
  · intro a1 a2 s hb
    by_cases hs : s.active = true
    · simp only [pollTick, hs, if_true] at hb ⊢
      simp only [Bool.and_eq_true] at hb
      simp [hb.1, hb.2]
    · have hs' : s.active = false := by
        cases hv : s.active
        · rfl
        · exact absurd hv hs
      rw [pollTick_inactive hs'] at hb ⊢
      exact hs'

/-- Witness for `poll_terminates`: a run of 201 empty ticks ends inactive, and
a tick that completes the bindings clears the interval. -/
theorem poll_terminates_witness :
    (runPoll (List.replicate (maxAttempts + 1) (false, false)) initPoll).active
        = false ∧
      (pollTick true true initPoll).active = false := by
  have h := poll_terminates (List.replicate (maxAttempts + 1) (false, false))
    (by simp)
  exact ⟨h.1, h.2 true true initPoll (by decide)⟩

/-! ## Compositing layer stack (compositing variant, GL layers `useEffect`) -/

/-- The props consumed by the GL-layers effect: pixel screen size, world
position/rotation props, and the uniform CSS scale. The rotation Euler angles
are carried symbolically (the code only copies them and rotates offset
vectors by them). -/
structure GLConfig where
  screenW : ℚ
  screenH : ℚ
  position : Vec3
  rotation : Vec3
  scale : ℚ
deriving DecidableEq

/-- A created plane: `PlaneGeometry(w, h)` dimensions, the base position the
normal offset is added to, the rotation copied onto the mesh, and the scalar
offset along the local surface normal (the z component of the offset vector
before `applyEuler`). -/
structure PlaneSpec where
  width : ℚ
  height : ℚ
  basePosition : Vec3
  rotation : Vec3
  normalOffset : ℚ
deriving DecidableEq

/-- Placement the compositing variant gives the CSS3D object:
`cssObj.position.copy(pos); cssObj.rotation.copy(rot)`. -/
def cssObjectPlacement (cfg : GLConfig) : Vec3 × Vec3 :=
  (cfg.position, cfg.rotation)

/-- The invisible occlusion plane:
`createPlaneMesh(screenW, screenH, occlusionMaterial, pos, rot)` — its
dimensions are the configured pixel size and its placement the configured
position/rotation props; it is not derived from any mesh lookup. -/
def occlusionPlane (cfg : GLConfig) : PlaneSpec :=
  { width := cfg.screenW
    height := cfg.screenH
    basePosition := cfg.position
    rotation := cfg.rotation
    normalOffset := 0 }

/-- The `layers` array of the GL-layers effect, in creation order:
(opacity, offsetZ) = smudge (0.08, 0.03), inner shadow (0.6, 0.01),
video layer 1 (0.5, 0.02), video layer 2 (0.12, 0.035). -/
def textureLayerSpecs : List (ℚ × ℚ) :=
  [(8/100, 3/100), (6/10, 1/100), (5/10, 2/100), (12/100, 35/1000)]

/-- The texture/tint planes created from `layers`: each is a
`screenW × screenH` plane at `pos + applyEuler(rot, (0,0,offsetZ))`. -/
def textureLayerPlanes (cfg : GLConfig) : List PlaneSpec :=
  textureLayerSpecs.map (fun l =>
    { width := cfg.screenW
      height := cfg.screenH
      basePosition := cfg.position
      rotation := cfg.rotation
      normalOffset := l.2 })

/-- The dimmer plane's normal offset `0.04` ("slightly in frontmost of texture
layers"). -/
def dimmerOffset : ℚ := 4 / 100

/-- The dimmer plane. -/
def dimmerPlane (cfg : GLConfig) : PlaneSpec :=
  { width := cfg.screenW
    height := cfg.screenH
    basePosition := cfg.position
    rotation := cfg.rotation
    normalOffset := dimmerOffset }

/-- A concrete configuration: default pixel size 1280 × 1024, the plane placed
at the origin with no rotation, default CSS scale 0.00125. -/
def testGLConfig : GLConfig :=
  { screenW := 1280
    screenH := 1024
    position := { x := 0, y := 0, z := 0 }
    rotation := { x := 0, y := 0, z := 0 }
    scale := 125 / 100000 }

/-- C7 counterexample: with the concrete configuration `testGLConfig` and a
scene whose target mesh has world bounding box of size (2, 3/2, 0) centered at
(1,2,3), the created occlusion plane has width 1280 ≠ 2 and sits at the origin,
not at the mesh center: its dimensions and placement are taken from the
configured pixel size and position props, not from the target mesh's
world-space bounds. -/
theorem occlusion_plane_mismatch :
    (occlusionPlane testGLConfig).width ≠ sampleMesh.boxSize.x ∧
      (occlusionPlane testGLConfig).basePosition ≠ sampleMesh.boxCenter := by
  constructor
  · intro h
    have : (1280 : ℚ) = 2 := h
    norm_num at this
  · intro h
    have : (0 : ℚ) = 1 := congrArg Vec3.x h
    norm_num at this

/-- C7 amended: at creation time the occlusion plane's dimensions equal the
configured pixel size (`screenW × screenH`, in world units) and its placement
equals the configured position/rotation props — the same placement given to
the CSS overlay object — with no normal offset; it does not track the target
mesh's world bounds. -/
theorem occlusion_plane_matches_config (cfg : GLConfig) :
    (occlusionPlane cfg).width = cfg.screenW ∧
      (occlusionPlane cfg).height = cfg.screenH ∧
      (occlusionPlane cfg).basePosition = (cssObjectPlacement cfg).1 ∧
      (occlusionPlane cfg).rotation = (cssObjectPlacement cfg).2 ∧
      (occlusionPlane cfg).normalOffset = 0 :=
  ⟨rfl, rfl, rfl, rfl, rfl⟩

/-- C8 counterexample: the texture layers are NOT created in order of strictly
increasing normal offset: the offsets in creation order are
(0.03, 0.01, 0.02, 0.035), and already the second layer (inner shadow, 0.01)
is closer to the surface than the first (smudge, 0.03). -/
theorem layer_offsets_not_increasing :
    ¬ List.Chain' (fun a b : ℚ => a < b)
        (textureLayerSpecs.map (fun l => l.2)) := by
  intro h
  have hmap : textureLayerSpecs.map (fun l => l.2)
      = [3/100, 1/100, 2/100, 35/1000] := rfl
  rw [hmap] at h
  have h01 : (3/100 : ℚ) < 1/100 := (List.chain'_cons.mp h).1
  norm_num at h01

/-- C8 amended: the stack consists of four texture/tint planes whose normal
offsets in creation order are (0.03, 0.01, 0.02, 0.035); all offsets are
strictly positive, pairwise distinct, and strictly smaller than the dimmer
plane's offset 0.04, so the planes do form a stack of distinct depths in front
of the surface — but creation order is not sorted by depth (depth order is
shadow 0.01 < video1 0.02 < smudge 0.03 < video2 0.035 < dimmer 0.04). -/
theorem layer_offsets_spec (cfg : GLConfig) :
    (textureLayerPlanes cfg).map PlaneSpec.normalOffset
        = [3/100, 1/100, 2/100, 35/1000] ∧
      ((textureLayerPlanes cfg).map PlaneSpec.normalOffset).Pairwise
        (fun a b => a ≠ b) ∧
      (((textureLayerPlanes cfg).map PlaneSpec.normalOffset).all
        (fun q => decide (0 < q) && decide (q < (dimmerPlane cfg).normalOffset)))
        = true ∧
      ((1:ℚ)/100 < 2/100 ∧ (2:ℚ)/100 < 3/100 ∧ (3:ℚ)/100 < 35/1000 ∧
        (35:ℚ)/1000 < dimmerOffset) := by
  have hmap : (textureLayerPlanes cfg).map PlaneSpec.normalOffset
      = [3/100, 1/100, 2/100, 35/1000] := rfl
  refine ⟨hmap, ?_, ?_, ?_⟩
  · rw [hmap]
    norm_num [List.pairwise_cons]
  · rw [hmap]
    have hd : (dimmerPlane cfg).normalOffset = 4/100 := rfl
    rw [hd]
    norm_num [List.all_cons]
  · unfold dimmerOffset
    norm_num

/-! ## Cross-document message handler (`onMessage`) -/

/-- The payload of a cross-document message. `type?` is `some t` when the
`type` field is a string `t`, and `none` when it is missing or not a string
(`typeof ev.data.type !== "string"`). -/
structure MsgData where
  type? : Option String
  clientX : ℚ
  clientY : ℚ
  key : Option String
deriving DecidableEq

/-- The overlay iframe's current rendered rectangle
(`iframe.getBoundingClientRect()`). -/
structure Rect where
  left : ℚ
  top : ℚ
  width : ℚ
  height : ℚ
deriving DecidableEq

/-- The synthetic `CustomEvent` re-dispatched on the iframe. -/
structure SyntheticEvent where
  eventType : String
  inComputer : Bool
  clientX? : Option ℤ
  clientY? : Option ℤ
  key? : Option String
deriving DecidableEq

/-- JS `Math.round`: round half away from zero is `⌊x + 1/2⌋` for the
half-up convention JS uses on non-negative and negative values alike
(JS rounds -0.5 to -0, i.e. towards +∞ on ties). -/
def jsRound (q : ℚ) : ℤ := ⌊q + 1/2⌋

/-- The `onMessage` handler: `ev.data` absent/falsy or `ev.data.type` not a
string → the message is ignored (no event dispatched, nothing mutated);
`"mousemove"` → virtual coordinates are remapped through the iframe's rendered
rect ratio (`clientX * rect.width / screenW + rect.left`, rounded);
`"keydown"`/`"keyup"` → the key is forwarded; any other string type is
re-dispatched as a bare event. -/
def onMessage (data? : Option MsgData) (rect : Rect) (screenW screenH : ℚ) :
    Option SyntheticEvent :=
  match data? with
  | none => none
  | some d =>
    match d.type? with
    | none => none
    | some t =>
      if t = "mousemove" then
        some { eventType := t
               inComputer := true
               clientX? := some (jsRound (d.clientX * (rect.width / screenW)
                 + rect.left))
               clientY? := some (jsRound (d.clientY * (rect.height / screenH)
                 + rect.top))
               key? := none }
      else if t = "keydown" ∨ t = "keyup" then
        some { eventType := t
               inComputer := true
               clientX? := none
               clientY? := none
               key? := d.key }
      else
        some { eventType := t
               inComputer := true
               clientX? := none
               clientY? := none
               key? := none }

/-- A message has the required shape when `ev.data` exists and its `type`
field is a string. -/
def hasRequiredShape (data? : Option MsgData) : Bool :=
  match data? with
  | none => false
  | some d => d.type?.isSome

/-- C9: a message without the required shape is ignored — the handler
dispatches no synthetic event (and, being a total function, mutates nothing
and raises no error); a recognized `"mousemove"` message is re-dispatched with
its virtual coordinates remapped through the rendered rect ratio. -/
theorem malformed_message_ignored (data? : Option MsgData) (d : MsgData)
    (rect : Rect) (screenW screenH : ℚ)
    (hbad : hasRequiredShape data? = false)
    (hmove : d.type? = some ("mousemove")) :
    onMessage data? rect screenW screenH = none ∧
      onMessage (some d) rect screenW screenH
        = some { eventType := "mousemove"
                 inComputer := true
                 clientX? := some (jsRound (d.clientX * (rect.width / screenW)
                   + rect.left))
                 clientY? := some (jsRound (d.clientY * (rect.height / screenH)
                   + rect.top))
                 key? := none } := by
  constructor
  · match data? with
    | none => rfl
    | some d' =>
      unfold hasRequiredShape at hbad
      match hts : d'.type? with
      | none => simp [onMessage, hts]
      | some t => simp [hts] at hbad
  · simp [onMessage, hmove]

/-- A malformed payload: the `type` field is present but not a string. -/
def badMsg : MsgData := { type? := none, clientX := 0, clientY := 0, key := none }

/-- A concrete `"mousemove"` payload at virtual coordinates (640, 512). -/
def moveMsg : MsgData :=
  { type? := some ("mousemove"), clientX := 640, clientY := 512, key := none }

/-- A concrete rendered rect: 320 × 256 at (10, 20). -/
def testRect : Rect := { left := 10, top := 20, width := 320, height := 256 }

/-- Witness for `malformed_message_ignored`: a payload whose `type` field is
not a string is dropped, and a concrete `"mousemove"` at virtual (640, 512)
on a 320 × 256 rect at (10, 20) is re-dispatched with remapped coordinates. -/
theorem malformed_message_ignored_witness :
    hasRequiredShape (some badMsg) = false ∧
      onMessage (some badMsg) testRect 1280 1024 = none ∧
      onMessage (some moveMsg) testRect 1280 1024
        = some { eventType := "mousemove"
                 inComputer := true
                 clientX? := some (jsRound (moveMsg.clientX
                   * (testRect.width / 1280) + testRect.left))
                 clientY? := some (jsRound (moveMsg.clientY
                   * (testRect.height / 1024) + testRect.top))
                 key? := none } := by
  have h := malformed_message_ignored (some badMsg) moveMsg testRect 1280 1024
    rfl rfl
  exact ⟨rfl, h.1, h.2⟩

/-! ## Overlay lifecycle (compositing variant, React effect mount/cleanup)

The component installs four effects: E1 creates the iframe + CSS3DObject
(pushing its cleanup onto `cleanupFunctionsRef` AND returning it), E2 creates
the GL planes (likewise pushed and returned), E3 installs the video poll
interval (cleanup returned only), and E4 returns a cleanup that invokes every
entry of `cleanupFunctionsRef` front-to-back and empties it. A config change
re-runs E1/E2 (old cleanups invoked, new cleanups pushed onto the same ref);
a component unmount invokes each effect's returned cleanup and then E4's
list replay. Each config generation is an "instance" below. -/

/-- Which tracked cleanup an entry of `cleanupFunctionsRef` is. -/
inductive CleanupKind where
  | iframe
  | glLayers
deriving DecidableEq

/-- Per-instance resource state: whether the CSS3DObject + DOM container and
the GL planes are attached, and how often each tracked cleanup has run. -/
structure InstState where
  cssAttached : Bool
  glAttached : Bool
  iframeRuns : ℕ
  glRuns : ℕ
deriving DecidableEq

/-- An instance never created (nothing attached, nothing run). -/
def emptyInst : InstState :=
  { cssAttached := false, glAttached := false, iframeRuns := 0, glRuns := 0 }

/-- An instance right after its effects ran: everything attached, no cleanup
invoked yet. -/
def freshInst : InstState :=
  { cssAttached := true, glAttached := true, iframeRuns := 0, glRuns := 0 }

/-- Whole-system state: all instances ever created (by id), the id of the
live instance if the component is mounted, the number of live poll intervals,
and the contents of `cleanupFunctionsRef`. -/
structure LifeState where
  insts : ℕ → InstState
  nextId : ℕ
  current : Option ℕ
  timers : ℕ
  cleanupRef : List (ℕ × CleanupKind)

/-- The E1 cleanup body: remove the CSS3DObject from its parent and the
container from the DOM (guarded, hence idempotent), unregister the message
listener; every run is counted. -/
def runIframeCleanup (i : InstState) : InstState :=
  { i with cssAttached := false, iframeRuns := i.iframeRuns + 1 }

/-- The E2 cleanup body: remove and dispose occlusion/texture/dimmer planes
(guarded by parent checks, hence idempotent); every run is counted. -/
def runGlCleanup (i : InstState) : InstState :=
  { i with glAttached := false, glRuns := i.glRuns + 1 }

def runKind : CleanupKind → InstState → InstState
  | CleanupKind.iframe => runIframeCleanup
  | CleanupKind.glLayers => runGlCleanup

/-- Apply a function to one instance. -/
def updInst (s : LifeState) (i : ℕ) (f : InstState → InstState) : LifeState :=
  { s with insts := fun j => if j = i then f (s.insts j) else s.insts j }

/-- Invoke one entry of `cleanupFunctionsRef`. -/
def runRefEntry (s : LifeState) (e : ℕ × CleanupKind) : LifeState :=
  updInst s e.1 (runKind e.2)

/-- Invoke a list of tracked cleanups front-to-back. -/
def foldRef (l : List (ℕ × CleanupKind)) (s : LifeState) : LifeState :=
  l.foldl runRefEntry s

/-- Component unmount: React invokes E1's, E2's, E3's and E4's returned
cleanups in order; E4 replays every entry of `cleanupFunctionsRef` and clears
the ref. -/
def unmountComp (s : LifeState) : LifeState :=
  match s.current with
  | none => s
  | some i =>
    let s1 := updInst s i runIframeCleanup
    let s2 := updInst s1 i runGlCleanup
    let s3 : LifeState := { s2 with timers := s2.timers - 1 }
    let s4 := foldRef s3.cleanupRef s3
    { s4 with cleanupRef := [], current := none }

/-- Effect bodies of a freshly mounted component: a new instance is created
and attached, a poll interval installed, and a fresh `cleanupFunctionsRef`
holds the two tracked cleanups. -/
def attachComp (s : LifeState) : LifeState :=
  { insts := fun j => if j = s.nextId then freshInst else s.insts j
    nextId := s.nextId + 1
    current := some s.nextId
    timers := s.timers + 1
    cleanupRef := [(s.nextId, CleanupKind.iframe), (s.nextId, CleanupKind.glLayers)] }

/-- Mounting the component (unmounting any live one first, as React would). -/
def mountComp (s : LifeState) : LifeState :=
  attachComp (unmountComp s)

/-- A config change while mounted: React re-runs E1/E2 — their old cleanups
are invoked, then the new effect bodies create a new instance and push its
cleanups onto the SAME (uncleared) `cleanupFunctionsRef`; the E3 interval is
untouched (its deps are empty). -/
def configChange (s : LifeState) : LifeState :=
  match s.current with
  | none => s
  | some i =>
    let s1 := updInst s i runIframeCleanup
    let s2 := updInst s1 i runGlCleanup
    { insts := fun j => if j = s2.nextId then freshInst else s2.insts j
      nextId := s2.nextId + 1
      current := some s2.nextId
      timers := s2.timers
      cleanupRef := s2.cleanupRef
        ++ [(s2.nextId, CleanupKind.iframe), (s2.nextId, CleanupKind.glLayers)] }

/-- Host-driven lifecycle operations. -/
inductive LifeOp where
  | mount
  | unmount
  | config
deriving DecidableEq

def applyOp (s : LifeState) : LifeOp → LifeState
  | LifeOp.mount => mountComp s
  | LifeOp.unmount => unmountComp s
  | LifeOp.config => configChange s

def runOps (ops : List LifeOp) (s : LifeState) : LifeState :=
  ops.foldl applyOp s

/-- The pristine state before the component ever mounts. -/
def initLife : LifeState :=
  { insts := fun _ => emptyInst
    nextId := 0
    current := none
    timers := 0
    cleanupRef := [] }

/-- Number of CSS3DObject proxies (with their DOM subtrees) attached. -/
def countCss (s : LifeState) : ℕ :=
  ((Finset.range s.nextId).filter
    (fun i => (s.insts i).cssAttached = true)).card

/-- Number of instances whose GL planes are attached. -/
def countGl (s : LifeState) : ℕ :=
  ((Finset.range s.nextId).filter
    (fun i => (s.insts i).glAttached = true)).card

/-- A fully torn-down instance: nothing attached, each tracked cleanup has
run at least once. -/
def Detached (i : InstState) : Prop :=
  i.cssAttached = false ∧ i.glAttached = false ∧
    1 ≤ i.iframeRuns ∧ 1 ≤ i.glRuns

theorem detached_runKind (k : CleanupKind) {i : InstState} (h : Detached i) :
    Detached (runKind k i) := by
  cases k
  · exact ⟨rfl, h.2.1, Nat.le_succ_of_le h.2.2.1, h.2.2.2⟩
  · exact ⟨h.1, rfl, h.2.2.1, Nat.le_succ_of_le h.2.2.2⟩

theorem foldRef_nextId (l : List (ℕ × CleanupKind)) :
    ∀ s : LifeState, (foldRef l s).nextId = s.nextId := by
  induction l with
  | nil => intro s; rfl
  | cons e rest ih =>
    intro s
    show (foldRef rest (runRefEntry s e)).nextId = s.nextId
    rw [ih]
    rfl

theorem foldRef_current (l : List (ℕ × CleanupKind)) :
    ∀ s : LifeState, (foldRef l s).current = s.current := by
  induction l with
  | nil => intro s; rfl
  | cons e rest ih =>
    intro s
    show (foldRef rest (runRefEntry s e)).current = s.current
    rw [ih]
    rfl

theorem foldRef_timers (l : List (ℕ × CleanupKind)) :
    ∀ s : LifeState, (foldRef l s).timers = s.timers := by
  induction l with
  | nil => intro s; rfl
  | cons e rest ih =>
    intro s
    show (foldRef rest (runRefEntry s e)).timers = s.timers
    rw [ih]
    rfl

theorem foldRef_detached (l : List (ℕ × CleanupKind)) :
    ∀ (s : LifeState) (j : ℕ), Detached (s.insts j) →
      Detached ((foldRef l s).insts j) := by
  induction l with
  | nil => intro s j h; exact h
  | cons e rest ih =>
    intro s j h
    show Detached ((foldRef rest (runRefEntry s e)).insts j)
    apply ih
    show Detached (if j = e.1 then runKind e.2 (s.insts j) else s.insts j)
    by_cases hj : j = e.1
    · rw [if_pos hj]; exact detached_runKind e.2 h
    · rw [if_neg hj]; exact h

/-- The invariant maintained by every lifecycle operation. -/
def Inv (s : LifeState) : Prop :=
  (∀ i, s.current = some i → i < s.nextId ∧ s.insts i = freshInst) ∧
    (∀ j, j < s.nextId → s.current ≠ some j → Detached (s.insts j)) ∧
    (s.timers = if s.current.isSome then 1 else 0) ∧
    (∀ e ∈ s.cleanupRef, e.1 < s.nextId)

theorem inv_init : Inv initLife := by
  refine ⟨?_, ?_, rfl, ?_⟩
  · intro i h
    exact absurd h (by simp [initLife])
  · intro j hj
    exact absurd hj (by simp [initLife])
  · intro e he
    exact absurd he (by simp [initLife])

theorem inv_unmount {s : LifeState} (h : Inv s) :
    Inv (unmountComp s) ∧ (unmountComp s).current = none := by
  rcases h with ⟨h1, h2, h3, h4⟩
  match hc : s.current with
  | none =>
    have hstep : unmountComp s = s := by
      unfold unmountComp
      rw [hc]
    rw [hstep]
    exact ⟨⟨h1, h2, h3, h4⟩, hc⟩
  | some i =>
    obtain ⟨hilt, hifresh⟩ := h1 i hc
    have hstep : unmountComp s
        = { foldRef s.cleanupRef
              { updInst (updInst s i runIframeCleanup) i runGlCleanup
                  with timers := s.timers - 1 } with
            cleanupRef := [], current := none } := by
      unfold unmountComp
      rw [hc]
      rfl
    rw [hstep]
    set s3 : LifeState :=
      { updInst (updInst s i runIframeCleanup) i runGlCleanup
          with timers := s.timers - 1 } with hs3
    have hdet : ∀ j, j < s.nextId → Detached (s3.insts j) := by
      intro j hj
      show Detached (if j = i
        then runKind CleanupKind.glLayers
          (if j = i then runKind CleanupKind.iframe (s.insts j) else s.insts j)
        else if j = i then runKind CleanupKind.iframe (s.insts j) else s.insts j)
      by_cases hji : j = i
      · rw [if_pos hji, if_pos hji, hji, hifresh]
        exact ⟨rfl, rfl, le_refl 1, le_refl 1⟩
      · rw [if_neg hji, if_neg hji]
        exact h2 j hj (fun hcj => hji (Option.some.inj (hcj.symm.trans hc)))
    refine ⟨⟨?_, ?_, ?_, ?_⟩, rfl⟩
    · intro k hk
      exact absurd hk (by simp)
    · intro j hj _
      have hn : (foldRef s.cleanupRef s3).nextId = s.nextId := by
        rw [foldRef_nextId]
        rfl
      rw [hn] at hj
      exact foldRef_detached s.cleanupRef s3 j (hdet j hj)
    · show (foldRef s.cleanupRef s3).timers = _
      rw [foldRef_timers]
      show s.timers - 1 = 0
      rw [h3, hc]
      rfl
    · intro e he
      exact absurd he (by simp)

theorem inv_attach {s : LifeState} (h : Inv s) (hc : s.current = none) :
    Inv (attachComp s) := by
  rcases h with ⟨_, h2, h3, _⟩
  refine ⟨?_, ?_, ?_, ?_⟩
  · intro i hi
    have : i = s.nextId := by
      injection hi with hi'
      exact hi'.symm
    subst this
    exact ⟨Nat.lt_succ_self _, if_pos rfl⟩
  · intro j hj hne
    have hjne : j ≠ s.nextId := by
      intro hje
      exact hne (by rw [hje]; rfl)
    have hjlt : j < s.nextId := by
      have := Nat.lt_succ_iff_lt_or_eq.mp hj
      rcases this with h' | h'
      · exact h'
      · exact absurd h' hjne
    show Detached (if j = s.nextId then freshInst else s.insts j)
    rw [if_neg hjne]
    exact h2 j hjlt (by rw [hc]; intro hh; cases hh)
  · show s.timers + 1 = _
    rw [h3, hc]
    rfl
  · intro e he
    have : e = (s.nextId, CleanupKind.iframe)
        ∨ e = (s.nextId, CleanupKind.glLayers) := by
      simpa [attachComp] using he
    rcases this with h' | h' <;> rw [h'] <;> exact Nat.lt_succ_self _

theorem inv_mount {s : LifeState} (h : Inv s) :
    Inv (mountComp s) ∧ (mountComp s).current = some (unmountComp s).nextId := by
  obtain ⟨hu, hcnone⟩ := inv_unmount h
  exact ⟨inv_attach hu hcnone, rfl⟩

theorem inv_config {s : LifeState} (h : Inv s) : Inv (configChange s) := by
  rcases h with ⟨h1, h2, h3, h4⟩
  match hc : s.current with
  | none =>
    have hstep : configChange s = s := by
      unfold configChange
      rw [hc]
    rw [hstep]
    exact ⟨h1, h2, h3, h4⟩
  | some i =>
    obtain ⟨hilt, hifresh⟩ := h1 i hc
    have hstep : configChange s
        = { insts := fun j => if j = s.nextId then freshInst
              else (updInst (updInst s i runIframeCleanup) i runGlCleanup).insts j
            nextId := s.nextId + 1
            current := some s.nextId
            timers := s.timers
            cleanupRef := s.cleanupRef
              ++ [(s.nextId, CleanupKind.iframe),
                  (s.nextId, CleanupKind.glLayers)] } := by
      unfold configChange
      rw [hc]
      rfl
    rw [hstep]
    refine ⟨?_, ?_, ?_, ?_⟩
    · intro k hk
      have : k = s.nextId := by
        injection hk with hk'
        exact hk'.symm
      subst this
      exact ⟨Nat.lt_succ_self _, if_pos rfl⟩
    · intro j hj hne
      have hjne : j ≠ s.nextId := by
        intro hje
        exact hne (by rw [hje])
      have hjlt : j < s.nextId := by
        rcases Nat.lt_succ_iff_lt_or_eq.mp hj with h' | h'
        · exact h'
        · exact absurd h' hjne
      show Detached (if j = s.nextId then freshInst
        else (updInst (updInst s i runIframeCleanup) i runGlCleanup).insts j)
      rw [if_neg hjne]
      show Detached (if j = i
        then runKind CleanupKind.glLayers
          (if j = i then runKind CleanupKind.iframe (s.insts j) else s.insts j)
        else if j = i then runKind CleanupKind.iframe (s.insts j) else s.insts j)
      by_cases hji : j = i
      · rw [if_pos hji, if_pos hji, hji, hifresh]
        exact ⟨rfl, rfl, le_refl 1, le_refl 1⟩
      · rw [if_neg hji, if_neg hji]
        exact h2 j hjlt (fun hcj => hji (Option.some.inj (hcj.symm.trans hc)))
    · show s.timers = _
      rw [h3, hc]
      rfl
    · intro e he
      rcases List.mem_append.mp he with h' | h'
      · exact Nat.lt_succ_of_lt (h4 e h')
      · have : e = (s.nextId, CleanupKind.iframe)
            ∨ e = (s.nextId, CleanupKind.glLayers) := by
          simpa using h'
        rcases this with h'' | h'' <;> rw [h''] <;> exact Nat.lt_succ_self _

theorem inv_applyOp {s : LifeState} (h : Inv s) (op : LifeOp) :
    Inv (applyOp s op) := by
  cases op
  · exact (inv_mount h).1
  · exact (inv_unmount h).1
  · exact inv_config h

theorem inv_runOps (ops : List LifeOp) :
    ∀ s : LifeState, Inv s → Inv (runOps ops s) := by
  induction ops with
  | nil => intro s h; exact h
  | cons op rest ih =>
    intro s h
    exact ih (applyOp s op) (inv_applyOp h op)

theorem countCss_of_inv {s : LifeState} (h : Inv s) :
    countCss s = if s.current.isSome then 1 else 0 := by
  rcases h with ⟨h1, h2, _, _⟩
  match hc : s.current with
  | none =>
    show countCss s = 0
    unfold countCss
    rw [Finset.card_eq_zero, Finset.filter_eq_empty_iff]
    intro j hj
    have hjlt := Finset.mem_range.mp hj
    have hd := h2 j hjlt (by rw [hc]; intro hh; cases hh)
    simp [hd.1]
  | some i =>
    obtain ⟨hilt, hifresh⟩ := h1 i hc
    show countCss s = 1
    unfold countCss
    have hfil : (Finset.range s.nextId).filter
        (fun j => (s.insts j).cssAttached = true) = {i} := by
      ext j
      constructor
      · intro hj
        obtain ⟨hjr, hja⟩ := Finset.mem_filter.mp hj
        have hjlt := Finset.mem_range.mp hjr
        by_contra hne
        have hne' : j ≠ i := by simpa using hne
        have hd := h2 j hjlt
          (fun hcj => hne' (Option.some.inj (hcj.symm.trans hc)))
        rw [hd.1] at hja
        cases hja
      · intro hj
        have : j = i := by simpa using hj
        subst this
        refine Finset.mem_filter.mpr ⟨Finset.mem_range.mpr hilt, ?_⟩
        rw [hifresh]
        rfl
    rw [hfil]
    rfl

theorem countGl_of_inv {s : LifeState} (h : Inv s) :
    countGl s = if s.current.isSome then 1 else 0 := by
  rcases h with ⟨h1, h2, _, _⟩
  match hc : s.current with
  | none =>
    show countGl s = 0
    unfold countGl
    rw [Finset.card_eq_zero, Finset.filter_eq_empty_iff]
    intro j hj
    have hjlt := Finset.mem_range.mp hj
    have hd := h2 j hjlt (by rw [hc]; intro hh; cases hh)
    simp [hd.2.1]
  | some i =>
    obtain ⟨hilt, hifresh⟩ := h1 i hc
    show countGl s = 1
    unfold countGl
    have hfil : (Finset.range s.nextId).filter
        (fun j => (s.insts j).glAttached = true) = {i} := by
      ext j
      constructor
      · intro hj
        obtain ⟨hjr, hja⟩ := Finset.mem_filter.mp hj
        have hjlt := Finset.mem_range.mp hjr
        by_contra hne
        have hne' : j ≠ i := by simpa using hne
        have hd := h2 j hjlt
          (fun hcj => hne' (Option.some.inj (hcj.symm.trans hc)))
        rw [hd.2.1] at hja
        cases hja
      · intro hj
        have : j = i := by simpa using hj
        subst this
        refine Finset.mem_filter.mpr ⟨Finset.mem_range.mpr hilt, ?_⟩
        rw [hifresh]
        rfl
    rw [hfil]
    rfl

theorem runOps_append_op (ops : List LifeOp) (op : LifeOp) (s : LifeState) :
    runOps (ops ++ [op]) s = applyOp (runOps ops s) op := by
  unfold runOps
  rw [List.foldl_append]
  rfl

/-- C4 counterexample: already for the simplest sequence — one mount followed
by one unmount — the mount's tracked cleanup actions are each invoked TWICE,
not exactly once: once as the effect's own returned cleanup and once again
when the final effect replays `cleanupFunctionsRef`. -/
theorem cleanup_runs_twice :
    ((runOps [LifeOp.mount, LifeOp.unmount] initLife).insts 0).iframeRuns = 2 ∧
      ((runOps [LifeOp.mount, LifeOp.unmount] initLife).insts 0).glRuns = 2 :=
  ⟨rfl, rfl⟩

/-- C4 amended: for every sequence of mount/unmount/config-change operations,
exactly one overlay proxy (with its DOM subtree) and one set of GL planes are
attached after the final mount and zero after the final unmount, zero timers
are leaked, and each mount's cleanup actions are invoked AT LEAST once by the
final unmount (they may run twice — once as the effect's own cleanup and once
via the replayed cleanup list — but every cleanup is guarded, so the double
invocation does not disturb the attach counts). -/
theorem lifecycle_spec (ops : List LifeOp) :
    countCss (runOps (ops ++ [LifeOp.mount]) initLife) = 1 ∧
      countGl (runOps (ops ++ [LifeOp.mount]) initLife) = 1 ∧
      (runOps (ops ++ [LifeOp.mount]) initLife).timers = 1 ∧
      countCss (runOps (ops ++ [LifeOp.unmount]) initLife) = 0 ∧
      countGl (runOps (ops ++ [LifeOp.unmount]) initLife) = 0 ∧
      (runOps (ops ++ [LifeOp.unmount]) initLife).timers = 0 ∧
      (∀ j, j < (runOps (ops ++ [LifeOp.unmount]) initLife).nextId →
        1 ≤ ((runOps (ops ++ [LifeOp.unmount]) initLife).insts j).iframeRuns ∧
          1 ≤ ((runOps (ops ++ [LifeOp.unmount]) initLife).insts j).glRuns) := by
  have hbase := inv_runOps ops initLife inv_init
  have hm : runOps (ops ++ [LifeOp.mount]) initLife
      = mountComp (runOps ops initLife) := runOps_append_op ops LifeOp.mount _
  have hu : runOps (ops ++ [LifeOp.unmount]) initLife
      = unmountComp (runOps ops initLife) := runOps_append_op ops LifeOp.unmount _
  obtain ⟨hminv, hmcur⟩ := inv_mount hbase
  obtain ⟨huinv, hucur⟩ := inv_unmount hbase
  rw [hm, hu]
  refine ⟨?_, ?_, ?_, ?_, ?_, ?_, ?_⟩
  · rw [countCss_of_inv hminv, hmcur]
    rfl
  · rw [countGl_of_inv hminv, hmcur]
    rfl
  · rw [hminv.2.2.1, hmcur]
    rfl
  · rw [countCss_of_inv huinv, hucur]
    rfl
  · rw [countGl_of_inv huinv, hucur]
    rfl
  · rw [huinv.2.2.1, hucur]
    rfl
  · intro j hj
    have hne : (unmountComp (runOps ops initLife)).current ≠ some j := by
      rw [hucur]
      intro hh
      cases hh
    have hd := huinv.2.1 j hj hne
    exact ⟨hd.2.2.1, hd.2.2.2⟩

/-- Witness for `lifecycle_spec` at the concrete sequence mount-mount /
mount-unmount, instantiating the per-instance cleanup bound at instance 0. -/
theorem lifecycle_spec_witness :
    countCss (runOps ([LifeOp.mount] ++ [LifeOp.mount]) initLife) = 1 ∧
      (0 < (runOps ([LifeOp.mount] ++ [LifeOp.unmount]) initLife).nextId ∧
        1 ≤ ((runOps ([LifeOp.mount] ++ [LifeOp.unmount]) initLife).insts 0).iframeRuns ∧
        1 ≤ ((runOps ([LifeOp.mount] ++ [LifeOp.unmount]) initLife).insts 0).glRuns) := by
  have h := lifecycle_spec [LifeOp.mount]
  exact ⟨h.1, by decide, h.2.2.2.2.2.2 0 (by decide)⟩

end SihModel
